import Mathlib

/-!
Verification of the product-placement workflow orchestrator (src/main.py).

The program is a single-script orchestrator: it validates an uploaded file,
creates a remote client from a secret API key, creates a fresh index named
from the current timestamp, uploads the video and polls the indexing task to
a terminal status (updating one status placeholder in place), and finally
requests generated text at temperature 0.7.  The remote service is an
external collaborator; its responses are modelled as an explicit environment
`Env`, and a run records the remote calls it issued, the final outcome, and
the resulting session state.
-/

namespace ProductPlacement

/-- Decimal digit characters of a natural number, most significant first;
mirrors the rendering of int(time.time()) inside the Python f-string
building the index name (line 134 of src/main.py). -/
def decChars (n : Nat) : List Char :=
  if _h : n < 10 then [Nat.digitChar n]
  else decChars (n / 10) ++ [Nat.digitChar (n % 10)]
termination_by n
decreasing_by exact Nat.div_lt_self (by omega) (by omega)

/-- Decimal string of a natural number, as Python `str` renders a nonnegative int. -/
def decRepr (n : Nat) : String := ⟨decChars n⟩

/-- The index name built at line 134 of src/main.py from the run timestamp. -/
def indexNameOf (t : Nat) : String := "my_product_index_" ++ decRepr t

/-- The models list passed to client.index.create (lines 30-33 of src/main.py). -/
def modelsConfig : List (String × List String) :=
  [("marengo2.7", ["visual", "audio"]), ("pegasus1.2", ["visual", "audio"])]

/-- A created index as returned by client.index.create: an id and a name. -/
structure CreatedIndex where
  id : String
  name : String
deriving DecidableEq, Repr

/-- One remote call issued by the orchestrator, with the arguments it passed. -/
inductive RemoteCall where
  | indexCreate (name : String) (models : List (String × List String)) (addons : List String)
  | taskCreate (indexId : String)
  | generateText (videoId : String) (prompt : String) (temperature : ℚ)
deriving DecidableEq, Repr

/-- Environment: the behaviour of the external remote service and secrets
store for one run.  Each field is the response of one external operation;
`Except.error e` models the operation raising an exception with message `e`.
`waitResult` models task.wait_for_done: on success it yields the list of
statuses the polling callback observed and the final status of the task. -/
structure Env where
  secretKey : Option String
  indexCreateResult : Except String CreatedIndex
  taskCreateResult : Except String Unit
  waitResult : Except String (List String × String)
  taskVideoId : String
  generateResult : Except String String
deriving Repr

/-- The TwelveLabs client handle, holding the API key it was built from. -/
structure TwelveLabs where
  api_key : String
deriving DecidableEq, Repr

/-- Module-level actions performed at script import (lines 11-13 of
src/main.py): the page is configured and no secret is read. -/
structure StartupActs where
  pageConfigSet : Bool
  secretReads : Nat
deriving DecidableEq, Repr

/-- Startup (import-time) behaviour of src/main.py: st.set_page_config only;
the secrets store is not touched at module level. -/
def startup : StartupActs := { pageConfigSet := true, secretReads := 0 }

/-- create_twelvelabs_client (lines 15-20): reads st.secrets, raising
(modelled as `Except.error`) when the key is absent. -/
def create_twelvelabs_client (env : Env) : Except Unit TwelveLabs :=
  match env.secretKey with
  | none => .error ()
  | some k => .ok { api_key := k }

/-- create_index (lines 26-42): calls client.index.create with the fixed
models and the thumbnail addon; any exception is re-raised as a
RuntimeError with message "Failed to create index: ...". -/
def create_index (env : Env) (index_name : String) :
    Except String CreatedIndex × List RemoteCall :=
  match env.indexCreateResult with
  | .ok idx => (.ok idx, [.indexCreate index_name modelsConfig ["thumbnail"]])
  | .error e =>
      (.error ("Failed to create index: " ++ e),
       [.indexCreate index_name modelsConfig ["thumbnail"]])

/-- Model of the SDK method task.wait_for_done (external collaborator; spec
§6 waitUntilTerminal): invokes the callback once per observed status,
threading the placeholder state through. -/
def wait_for_done (observed : List String)
    (callback : Option String → String → Option String)
    (ph : Option String) : Option String :=
  observed.foldl callback ph

/-- Result of upload_video_and_wait: the returned video id or raised error,
the remote calls issued, the sleep interval passed to wait_for_done (when
reached), the final content of the single status placeholder, and the
statuses the callback was invoked with. -/
structure UploadResult where
  result : Except String String
  calls : List RemoteCall
  sleepInterval : Option Nat
  placeholder : Option String
  callbackStatuses : List String
deriving Repr

/-- upload_video_and_wait (lines 45-71): submits the task, waits for a
terminal status with sleep_interval 30 while the callback overwrites one
placeholder, then returns task.video_id if the status is "ready" and
otherwise raises; every exception inside the block — submission failure,
polling failure, or the non-ready RuntimeError — is re-raised wrapped as
"Video upload/indexing failed: ...". -/
def upload_video_and_wait (env : Env) (index_id : String) : UploadResult :=
  match env.taskCreateResult with
  | .error e =>
      { result := .error ("Video upload/indexing failed: " ++ e),
        calls := [.taskCreate index_id], sleepInterval := none,
        placeholder := none, callbackStatuses := [] }
  | .ok _ =>
      match env.waitResult with
      | .error e =>
          { result := .error ("Video upload/indexing failed: " ++ e),
            calls := [.taskCreate index_id], sleepInterval := some 30,
            placeholder := none, callbackStatuses := [] }
      | .ok (observed, finalStatus) =>
          let ph := wait_for_done observed
            (fun _ s => some ("Indexing Status: " ++ s)) none
          if finalStatus = "ready" then
            { result := .ok env.taskVideoId, calls := [.taskCreate index_id],
              sleepInterval := some 30, placeholder := ph,
              callbackStatuses := observed }
          else
            { result := .error ("Video upload/indexing failed: " ++
                ("Indexing failed with status \x27" ++ finalStatus ++ "\x27")),
              calls := [.taskCreate index_id], sleepInterval := some 30,
              placeholder := ph, callbackStatuses := observed }

/-- generate_text_from_video (lines 74-82): calls client.generate.text with
temperature 0.7 and returns result.data; any exception is re-raised wrapped
as "Text generation failed: ...". -/
def generate_text_from_video (env : Env) (video_id : String) (prompt : String) :
    Except String String × List RemoteCall :=
  match env.generateResult with
  | .ok d => (.ok d, [.generateText video_id prompt (0.7 : ℚ)])
  | .error e =>
      (.error ("Text generation failed: " ++ e),
       [.generateText video_id prompt (0.7 : ℚ)])

/-- Streamlit session state: each field is `none` when the key is absent
and `some v` when the key is present with value `v` (itself an Option,
since the program stores None into present keys). -/
structure SessionState where
  index_id : Option (Option String)
  video_id : Option (Option String)
deriving DecidableEq, Repr

/-- The inputs of one Analyze click: the prompt text, whether a file was
uploaded, and the integer timestamp int(time.time()) observed at line 134. -/
structure Inputs where
  prompt : String
  uploadedFile : Bool
  timestamp : Nat
deriving DecidableEq, Repr

/-- The outcome rendered by main: which st.error/st.write branch fired. -/
inductive Outcome where
  | validationFailed
  | clientInitFailed
  | collectionCreationFailed (msg : String)
  | indexingFailed (msg : String)
  | generationFailed (msg : String)
  | done (text : String)
deriving DecidableEq, Repr

/-- Everything observable about one run of the Analyze branch of main. -/
structure RunResult where
  outcome : Outcome
  calls : List RemoteCall
  session : SessionState
  sleepInterval : Option Nat
  placeholder : Option String
  callbackStatuses : List String
  secretReads : Nat
deriving Repr

/-- main (lines 89-163), the Analyze-click path: initialize absent session
keys to None, validate the file, build the client (one secrets read),
create the index (storing its id in session state on success), upload and
wait, store the video id, and generate text; the RuntimeError of each stage is
caught and the run returns at that stage. -/
def main (env : Env) (inp : Inputs) (s0 : SessionState) : RunResult :=
  let s1 : SessionState :=
    { index_id := some (s0.index_id.getD none),
      video_id := some (s0.video_id.getD none) }
  if inp.uploadedFile = false then
    { outcome := .validationFailed, calls := [], session := s1,
      sleepInterval := none, placeholder := none, callbackStatuses := [],
      secretReads := 0 }
  else
    match create_twelvelabs_client env with
    | .error _ =>
        { outcome := .clientInitFailed, calls := [], session := s1,
          sleepInterval := none, placeholder := none, callbackStatuses := [],
          secretReads := 1 }
    | .ok _client =>
        let index_name := "my_product_index_" ++ decRepr inp.timestamp
        match create_index env index_name with
        | (.error e, cs1) =>
            { outcome := .collectionCreationFailed e, calls := cs1,
              session := s1, sleepInterval := none, placeholder := none,
              callbackStatuses := [], secretReads := 1 }
        | (.ok created, cs1) =>
            let s2 : SessionState := { s1 with index_id := some (some created.id) }
            let u := upload_video_and_wait env created.id
            match u.result with
            | .error e =>
                { outcome := .indexingFailed e, calls := cs1 ++ u.calls,
                  session := s2, sleepInterval := u.sleepInterval,
                  placeholder := u.placeholder,
                  callbackStatuses := u.callbackStatuses, secretReads := 1 }
            | .ok vid =>
                let s3 : SessionState := { s2 with video_id := some (some vid) }
                match generate_text_from_video env vid inp.prompt with
                | (.error e, cs2) =>
                    { outcome := .generationFailed e,
                      calls := cs1 ++ u.calls ++ cs2, session := s3,
                      sleepInterval := u.sleepInterval,
                      placeholder := u.placeholder,
                      callbackStatuses := u.callbackStatuses, secretReads := 1 }
                | (.ok txt, cs2) =>
                    { outcome := .done txt, calls := cs1 ++ u.calls ++ cs2,
                      session := s3, sleepInterval := u.sleepInterval,
                      placeholder := u.placeholder,
                      callbackStatuses := u.callbackStatuses, secretReads := 1 }

/-- Name of the collection whose creation a run requested, read off the
first index-creation call in the trace of the run. -/
def createdCollectionName (r : RunResult) : Option String :=
  r.calls.findSome? fun c =>
    match c with
    | .indexCreate nm _ _ => some nm
    | _ => none

/-- Whether a remote call is an index-creation request. -/
def isIndexCreate : RemoteCall → Bool
  | .indexCreate _ _ _ => true
  | _ => false

/-- A sample environment in which every remote operation succeeds. -/
def envOk : Env :=
  { secretKey := some "k",
    indexCreateResult := .ok { id := "idx1", name := "my_product_index_100" },
    taskCreateResult := .ok (),
    waitResult := .ok (["indexing", "ready"], "ready"),
    taskVideoId := "vid1",
    generateResult := .ok "insights" }

/-- The successful environment with the secret key missing. -/
def envNoKey : Env := { envOk with secretKey := none }

/-- The successful environment with index creation failing. -/
def envIndexFail : Env := { envOk with indexCreateResult := .error "quota" }

/-- The successful environment with task submission failing. -/
def envTaskFail : Env := { envOk with taskCreateResult := .error "net down" }

/-- The successful environment with a transport failure while polling. -/
def envWaitFail : Env := { envOk with waitResult := .error "poll lost" }

/-- The successful environment whose task ends in the terminal status "failed". -/
def envBadStatus : Env := { envOk with waitResult := .ok (["indexing", "failed"], "failed") }

/-- The successful environment with the generation request failing. -/
def envGenFail : Env := { envOk with generateResult := .error "gen boom" }

/-- An empty session: neither identifier key is present. -/
def sess0 : SessionState := { index_id := none, video_id := none }

/-- Sample inputs: file uploaded, prompt "a", timestamp 100. -/
def inputsA : Inputs := { prompt := "a", uploadedFile := true, timestamp := 100 }

/-- Sample inputs differing from inputsA only in the prompt. -/
def inputsB : Inputs := { prompt := "b", uploadedFile := true, timestamp := 100 }

/-- Sample inputs with prompt "c", used by further witnesses. -/
def inputsC : Inputs := { prompt := "c", uploadedFile := true, timestamp := 100 }

/-- Sample inputs with no uploaded file. -/
def inputsNoFile : Inputs := { prompt := "a", uploadedFile := false, timestamp := 100 }

/-- C4: a run invoked without an uploaded file ends in the validation
failure and issues no remote call at all (it does not even read the
secret or build the client). -/
theorem missing_file_no_remote_calls (env : Env) (inp : Inputs) (s0 : SessionState)
    (h : inp.uploadedFile = false) :
    (main env inp s0).outcome = Outcome.validationFailed ∧
    (main env inp s0).calls = [] ∧
    (main env inp s0).secretReads = 0 := by
  simp [main, h]

/-- Witness for C4 at a concrete run with no uploaded file. -/
theorem missing_file_no_remote_calls_witness :
    (main envOk inputsNoFile sess0).outcome = Outcome.validationFailed ∧
    (main envOk inputsNoFile sess0).calls = [] ∧
    (main envOk inputsNoFile sess0).secretReads = 0 :=
  missing_file_no_remote_calls envOk inputsNoFile sess0 rfl

/-- C3: when index creation fails, the run ends in the collection-creation
failure carrying the wrapped message, and no task submission and no
generation request is ever issued. -/
theorem collection_failure_aborts (env : Env) (inp : Inputs) (s0 : SessionState)
    (k e : String)
    (hf : inp.uploadedFile = true) (hk : env.secretKey = some k)
    (hic : env.indexCreateResult = Except.error e) :
    (main env inp s0).outcome =
      Outcome.collectionCreationFailed ("Failed to create index: " ++ e) ∧
    (∀ i, RemoteCall.taskCreate i ∉ (main env inp s0).calls) ∧
    (∀ v p t, RemoteCall.generateText v p t ∉ (main env inp s0).calls) := by
  simp [main, create_twelvelabs_client, create_index, hf, hk, hic]

/-- Witness for C3 at a concrete run whose index creation fails. -/
theorem collection_failure_aborts_witness :
    (main envIndexFail inputsA sess0).outcome =
      Outcome.collectionCreationFailed ("Failed to create index: " ++ "quota") ∧
    (∀ i, RemoteCall.taskCreate i ∉ (main envIndexFail inputsA sess0).calls) ∧
    (∀ v p t, RemoteCall.generateText v p t ∉ (main envIndexFail inputsA sess0).calls) :=
  collection_failure_aborts envIndexFail inputsA sess0 "k" "quota" rfl rfl rfl

/-- C1: when the task reaches a terminal status other than "ready", the run
ends in the indexing failure whose message carries that status string, and
no generation request is ever issued. -/
theorem indexing_failure_skips_generation (env : Env) (inp : Inputs) (s0 : SessionState)
    (k : String) (idx : CreatedIndex) (sts : List String) (fin : String)
    (hf : inp.uploadedFile = true) (hk : env.secretKey = some k)
    (hic : env.indexCreateResult = Except.ok idx)
    (htc : env.taskCreateResult = Except.ok ())
    (hw : env.waitResult = Except.ok (sts, fin)) (hfin : fin ≠ "ready") :
    (main env inp s0).outcome = Outcome.indexingFailed
      ("Video upload/indexing failed: " ++
        ("Indexing failed with status \x27" ++ fin ++ "\x27")) ∧
    ∀ v p t, RemoteCall.generateText v p t ∉ (main env inp s0).calls := by
  simp [main, create_twelvelabs_client, create_index, upload_video_and_wait,
    hf, hk, hic, htc, hw, hfin]

/-- Witness for C1 at a concrete run whose task ends in status "failed". -/
theorem indexing_failure_skips_generation_witness :
    (main envBadStatus inputsA sess0).outcome = Outcome.indexingFailed
      ("Video upload/indexing failed: " ++
        ("Indexing failed with status \x27" ++ "failed" ++ "\x27")) ∧
    ∀ v p t, RemoteCall.generateText v p t ∉ (main envBadStatus inputsA sess0).calls :=
  indexing_failure_skips_generation envBadStatus inputsA sess0 "k"
    { id := "idx1", name := "my_product_index_100" } ["indexing", "failed"] "failed"
    rfl rfl rfl rfl rfl (by decide)

/-- C5: each stage function catches remote failures at its call site and
re-raises them with the stage-identifying message attached and the
original message as context: every error a stage function can return is
the stage wrapper applied to the underlying message — the index-creation
failure message, the task-submission failure message, the polling failure
message, or the RuntimeError text carrying the non-ready terminal status —
so no raw transport message escapes unwrapped. -/
theorem stage_errors_wrapped (env : Env) (n i v p : String) :
    (∀ m, (create_index env n).1 = Except.error m →
      ∃ e, env.indexCreateResult = Except.error e ∧
        m = "Failed to create index: " ++ e) ∧
    (∀ m, (upload_video_and_wait env i).result = Except.error m →
      ∃ e, m = "Video upload/indexing failed: " ++ e ∧
        (env.taskCreateResult = Except.error e ∨
         env.waitResult = Except.error e ∨
         ∃ sts fin, env.waitResult = Except.ok (sts, fin) ∧ fin ≠ "ready" ∧
           e = "Indexing failed with status \x27" ++ fin ++ "\x27")) ∧
    (∀ m, (generate_text_from_video env v p).1 = Except.error m →
      ∃ e, env.generateResult = Except.error e ∧
        m = "Text generation failed: " ++ e) := by
  obtain ⟨sk, icr, tcr, wr, tvid, gr⟩ := env
  refine ⟨?_, ?_, ?_⟩
  · intro m hm
    cases icr <;> simp_all [create_index]
  · intro m hm
    cases tcr with
    | error e =>
      simp [upload_video_and_wait] at hm
      exact ⟨e, hm.symm, Or.inl rfl⟩
    | ok u =>
      cases wr with
      | error e =>
        simp [upload_video_and_wait] at hm
        exact ⟨e, hm.symm, Or.inr (Or.inl rfl)⟩
      | ok pr =>
        obtain ⟨sts, fin⟩ := pr
        by_cases hfin : fin = "ready"
        · simp [upload_video_and_wait, hfin] at hm
        · simp [upload_video_and_wait, hfin] at hm
          exact ⟨_, hm.symm, Or.inr (Or.inr ⟨sts, fin, rfl, hfin, rfl⟩)⟩
  · intro m hm
    cases gr <;> simp_all [generate_text_from_video]

/-- Witness for C5: the wrapped messages observed on concrete failing
environments, each tied to its underlying error — a failing index
creation, a failing task submission, a non-ready terminal status, and a
failing generation. -/
theorem stage_errors_wrapped_witness :
    (∃ e, envIndexFail.indexCreateResult = Except.error e ∧
      "Failed to create index: " ++ "quota" = "Failed to create index: " ++ e) ∧
    (∃ e, "Video upload/indexing failed: " ++ "net down" =
        "Video upload/indexing failed: " ++ e ∧
      (envTaskFail.taskCreateResult = Except.error e ∨
       envTaskFail.waitResult = Except.error e ∨
       ∃ sts fin, envTaskFail.waitResult = Except.ok (sts, fin) ∧ fin ≠ "ready" ∧
         e = "Indexing failed with status \x27" ++ fin ++ "\x27")) ∧
    (∃ e, "Video upload/indexing failed: " ++
        ("Indexing failed with status \x27" ++ "failed" ++ "\x27") =
        "Video upload/indexing failed: " ++ e ∧
      (envBadStatus.taskCreateResult = Except.error e ∨
       envBadStatus.waitResult = Except.error e ∨
       ∃ sts fin, envBadStatus.waitResult = Except.ok (sts, fin) ∧ fin ≠ "ready" ∧
         e = "Indexing failed with status \x27" ++ fin ++ "\x27")) ∧
    (∃ e, envGenFail.generateResult = Except.error e ∧
      "Text generation failed: " ++ "gen boom" = "Text generation failed: " ++ e) :=
  ⟨(stage_errors_wrapped envIndexFail "n" "i" "v" "p").1 _ rfl,
   (stage_errors_wrapped envTaskFail "n" "i" "v" "p").2.1 _ rfl,
   (stage_errors_wrapped envBadStatus "n" "i" "v" "p").2.1 _ rfl,
   (stage_errors_wrapped envGenFail "n" "i" "v" "p").2.2 _ rfl⟩

/-- C6: every generation request is issued with temperature exactly 0.7,
and on success the stage returns exactly the data field of the remote
result. -/
theorem generation_temperature (env : Env) (v p : String) :
    (generate_text_from_video env v p).2 =
      [RemoteCall.generateText v p (0.7 : ℚ)] ∧
    (∀ d, env.generateResult = Except.ok d →
      (generate_text_from_video env v p).1 = Except.ok d) := by
  obtain ⟨sk, icr, tcr, wr, tvid, gr⟩ := env
  cases gr <;> simp_all [generate_text_from_video]

/-- Witness for C6 at a concrete successful generation. -/
theorem generation_temperature_witness :
    (generate_text_from_video envOk "vid1" "a").2 =
      [RemoteCall.generateText "vid1" "a" (0.7 : ℚ)] ∧
    (generate_text_from_video envOk "vid1" "a").1 = Except.ok "insights" :=
  ⟨(generation_temperature envOk "vid1" "a").1,
   (generation_temperature envOk "vid1" "a").2 "insights" rfl⟩

/-- Folding a callback that ignores the accumulated value keeps only the
last element: the behaviour of an in-place overwrite of a single cell. -/
theorem foldl_overwrite (f : String → Option String) :
    ∀ (l : List String) (a : Option String),
      List.foldl (fun _ s => f s) a l = ((l.getLast?).map f).getD a := by
  intro l
  induction l with
  | nil => intro a; rfl
  | cons x xs ih =>
    intro a
    rw [List.foldl_cons, ih]
    cases xs with
    | nil => rfl
    | cons y ys =>
      rw [List.getLast?_cons_cons]
      cases h : (y :: ys).getLast? with
      | none => exact absurd (List.getLast?_eq_none_iff.mp h) (by simp)
      | some z => simp

/-- C9: when the task was submitted and the wait completes, the wait was
entered with sleep interval 30, the callback saw exactly the observed
status strings, and the single status placeholder ends up holding only the
message for the last observed status (earlier writes overwritten in
place, no log accumulated). -/
theorem polling_interval_and_placeholder (env : Env) (i : String)
    (sts : List String) (fin : String)
    (htc : env.taskCreateResult = Except.ok ())
    (hw : env.waitResult = Except.ok (sts, fin)) :
    (upload_video_and_wait env i).sleepInterval = some 30 ∧
    (upload_video_and_wait env i).callbackStatuses = sts ∧
    (upload_video_and_wait env i).placeholder =
      (sts.getLast?).map (fun s => "Indexing Status: " ++ s) := by
  by_cases hfin : fin = "ready" <;>
    simp only [upload_video_and_wait, htc, hw, wait_for_done, hfin,
      if_true, if_false, ite_true, ite_false] <;>
    rw [foldl_overwrite] <;>
    cases h : sts.getLast? <;> simp_all

/-- Witness for C9 on a concrete completed wait. -/
theorem polling_interval_and_placeholder_witness :
    (upload_video_and_wait envOk "idx1").sleepInterval = some 30 ∧
    (upload_video_and_wait envOk "idx1").callbackStatuses = ["indexing", "ready"] ∧
    (upload_video_and_wait envOk "idx1").placeholder =
      ((["indexing", "ready"] : List String).getLast?).map
        (fun s => "Indexing Status: " ++ s) :=
  polling_interval_and_placeholder envOk "idx1" ["indexing", "ready"] "ready" rfl rfl

/-- C2: a generation request appears in the trace of a run only when the
final status of the task was observed to be "ready", and then the trace is
exactly index creation, then task creation on the id of the created index, then the
generation request, in that order; moreover a task creation appears only
after a successful index creation heading the trace. -/
theorem generation_requires_prior_stages (env : Env) (inp : Inputs) (s0 : SessionState) :
    (∀ v p t, RemoteCall.generateText v p t ∈ (main env inp s0).calls →
      ∃ idx sts, env.indexCreateResult = Except.ok idx ∧
        env.waitResult = Except.ok (sts, "ready") ∧
        (main env inp s0).calls =
          [RemoteCall.indexCreate ("my_product_index_" ++ decRepr inp.timestamp)
              modelsConfig ["thumbnail"],
           RemoteCall.taskCreate idx.id,
           RemoteCall.generateText v p t]) ∧
    (∀ i, RemoteCall.taskCreate i ∈ (main env inp s0).calls →
      ∃ idx, env.indexCreateResult = Except.ok idx ∧ i = idx.id ∧
        (main env inp s0).calls.head? =
          some (RemoteCall.indexCreate ("my_product_index_" ++ decRepr inp.timestamp)
            modelsConfig ["thumbnail"])) := by
  obtain ⟨sk, icr, tcr, wr, tvid, gr⟩ := env
  cases hf : inp.uploadedFile with
  | false => simp [main, hf]
  | true =>
    cases sk with
    | none => simp [main, create_twelvelabs_client, hf]
    | some k =>
      cases icr with
      | error e => simp [main, create_twelvelabs_client, create_index, hf]
      | ok idx =>
        cases tcr with
        | error e =>
          simp [main, create_twelvelabs_client, create_index,
            upload_video_and_wait, hf]
        | ok u =>
          cases wr with
          | error e =>
            simp [main, create_twelvelabs_client, create_index,
              upload_video_and_wait, hf]
          | ok pr =>
            obtain ⟨sts, fin⟩ := pr
            by_cases hfin : fin = "ready"
            · subst hfin
              cases gr with
              | error e =>
                constructor
                · intro v p t hmem
                  simp [main, create_twelvelabs_client, create_index,
                    upload_video_and_wait, generate_text_from_video, hf] at hmem
                  obtain ⟨hv, hp, ht⟩ := hmem
                  subst hv; subst hp; subst ht
                  exact ⟨idx, sts, rfl, rfl, by
                    simp [main, create_twelvelabs_client, create_index,
                      upload_video_and_wait, generate_text_from_video, hf]⟩
                · intro i hmem
                  simp [main, create_twelvelabs_client, create_index,
                    upload_video_and_wait, generate_text_from_video, hf] at hmem
                  subst hmem
                  exact ⟨idx, rfl, rfl, by
                    simp [main, create_twelvelabs_client, create_index,
                      upload_video_and_wait, generate_text_from_video, hf]⟩
              | ok txt =>
                constructor
                · intro v p t hmem
                  simp [main, create_twelvelabs_client, create_index,
                    upload_video_and_wait, generate_text_from_video, hf] at hmem
                  obtain ⟨hv, hp, ht⟩ := hmem
                  subst hv; subst hp; subst ht
                  exact ⟨idx, sts, rfl, rfl, by
                    simp [main, create_twelvelabs_client, create_index,
                      upload_video_and_wait, generate_text_from_video, hf]⟩
                · intro i hmem
                  simp [main, create_twelvelabs_client, create_index,
                    upload_video_and_wait, generate_text_from_video, hf] at hmem
                  subst hmem
                  exact ⟨idx, rfl, rfl, by
                    simp [main, create_twelvelabs_client, create_index,
                      upload_video_and_wait, generate_text_from_video, hf]⟩
            · constructor
              · intro v p t hmem
                simp [main, create_twelvelabs_client, create_index,
                  upload_video_and_wait, generate_text_from_video, hf, hfin] at hmem
              · intro i hmem
                simp [main, create_twelvelabs_client, create_index,
                  upload_video_and_wait, generate_text_from_video, hf, hfin] at hmem
                subst hmem
                exact ⟨idx, rfl, rfl, by
                  simp [main, create_twelvelabs_client, create_index,
                    upload_video_and_wait, generate_text_from_video, hf, hfin]⟩

/-- Witness for C2 on a concrete fully successful run. -/
theorem generation_requires_prior_stages_witness :
    ∃ idx sts, envOk.indexCreateResult = Except.ok idx ∧
      envOk.waitResult = Except.ok (sts, "ready") ∧
      (main envOk inputsA sess0).calls =
        [RemoteCall.indexCreate ("my_product_index_" ++ decRepr inputsA.timestamp)
            modelsConfig ["thumbnail"],
         RemoteCall.taskCreate idx.id,
         RemoteCall.generateText "vid1" "a" (0.7 : ℚ)] :=
  (generation_requires_prior_stages envOk inputsA sess0).1 "vid1" "a" (0.7 : ℚ)
    (by simp [main, envOk, inputsA, sess0, create_twelvelabs_client, create_index,
      upload_video_and_wait, generate_text_from_video])

/-- C10: the session identifiers outlive the run.  Once index creation has
succeeded, session index_id holds the new collection id even when the
upload/indexing stage fails (video_id then keeps its value from before the
run) and also when the generation stage fails (video_id then holds the new
video id). -/
theorem session_ids_survive_failures (env : Env) (inp : Inputs) (s0 : SessionState)
    (k : String) (idx : CreatedIndex)
    (hf : inp.uploadedFile = true) (hk : env.secretKey = some k)
    (hic : env.indexCreateResult = Except.ok idx) :
    (∀ e, (upload_video_and_wait env idx.id).result = Except.error e →
      (main env inp s0).outcome = Outcome.indexingFailed e ∧
      (main env inp s0).session.index_id = some (some idx.id) ∧
      (main env inp s0).session.video_id = some (s0.video_id.getD none)) ∧
    (∀ vid ge, (upload_video_and_wait env idx.id).result = Except.ok vid →
      env.generateResult = Except.error ge →
      (main env inp s0).outcome =
        Outcome.generationFailed ("Text generation failed: " ++ ge) ∧
      (main env inp s0).session.index_id = some (some idx.id) ∧
      (main env inp s0).session.video_id = some (some vid)) := by
  constructor
  · intro e he
    simp [main, create_twelvelabs_client, create_index, hf, hk, hic, he]
  · intro vid ge hu hg
    simp [main, create_twelvelabs_client, create_index, generate_text_from_video,
      hf, hk, hic, hu, hg]

/-- Witness for C10: the indexing-failure case on a session that already
holds a video id, and the generation-failure case. -/
theorem session_ids_survive_failures_witness :
    ((main envTaskFail inputsA
        { index_id := some (some "old_idx"), video_id := some (some "old_vid") }).session.index_id
      = some (some "idx1") ∧
     (main envTaskFail inputsA
        { index_id := some (some "old_idx"), video_id := some (some "old_vid") }).session.video_id
      = some (some "old_vid")) ∧
    ((main envGenFail inputsA sess0).session.index_id = some (some "idx1") ∧
     (main envGenFail inputsA sess0).session.video_id = some (some "vid1")) :=
  ⟨((session_ids_survive_failures envTaskFail inputsA
      { index_id := some (some "old_idx"), video_id := some (some "old_vid") }
      "k" { id := "idx1", name := "my_product_index_100" } rfl rfl rfl).1
      ("Video upload/indexing failed: " ++ "net down") rfl).2,
   ((session_ids_survive_failures envGenFail inputsA sess0
      "k" { id := "idx1", name := "my_product_index_100" } rfl rfl rfl).2
      "vid1" "gen boom" rfl rfl).2⟩

/-- Nat.digitChar is injective below 10. -/
theorem digitChar_inj_lt {a b : Nat} (ha : a < 10) (hb : b < 10)
    (h : Nat.digitChar a = Nat.digitChar b) : a = b := by
  have key : ∀ x y : Fin 10, Nat.digitChar x.val = Nat.digitChar y.val → x = y := by decide
  exact congrArg Fin.val (key ⟨a, ha⟩ ⟨b, hb⟩ h)

/-- The decimal rendering of a natural number is never empty. -/
theorem decChars_ne_nil (n : Nat) : decChars n ≠ [] := by
  rw [decChars]
  split <;> simp

/-- The decimal rendering of a natural number determines the number. -/
theorem decChars_injective : ∀ m n : Nat, decChars m = decChars n → m = n := by
  intro m
  induction m using Nat.strong_induction_on with
  | _ m ih =>
    intro n h
    by_cases hm : m < 10 <;> by_cases hn : n < 10
    · have em : decChars m = [Nat.digitChar m] := by rw [decChars]; simp [hm]
      have en : decChars n = [Nat.digitChar n] := by rw [decChars]; simp [hn]
      rw [em, en] at h
      simp only [List.cons.injEq, and_true] at h
      exact digitChar_inj_lt hm hn h
    · have em : decChars m = [Nat.digitChar m] := by rw [decChars]; simp [hm]
      have en : decChars n = decChars (n / 10) ++ [Nat.digitChar (n % 10)] := by
        rw [decChars]; simp [hn]
      rw [em, en] at h
      have hl := congrArg List.length h
      simp only [List.length_cons, List.length_nil, List.length_append] at hl
      have hz : (decChars (n / 10)).length = 0 := by omega
      exact absurd (List.length_eq_zero.mp hz) (decChars_ne_nil _)
    · have em : decChars m = decChars (m / 10) ++ [Nat.digitChar (m % 10)] := by
        rw [decChars]; simp [hm]
      have en : decChars n = [Nat.digitChar n] := by rw [decChars]; simp [hn]
      rw [em, en] at h
      have hl := congrArg List.length h
      simp only [List.length_cons, List.length_nil, List.length_append] at hl
      have hz : (decChars (m / 10)).length = 0 := by omega
      exact absurd (List.length_eq_zero.mp hz) (decChars_ne_nil _)
    · have em : decChars m = decChars (m / 10) ++ [Nat.digitChar (m % 10)] := by
        rw [decChars]; simp [hm]
      have en : decChars n = decChars (n / 10) ++ [Nat.digitChar (n % 10)] := by
        rw [decChars]; simp [hn]
      rw [em, en] at h
      have h2 := congrArg List.reverse h
      simp only [List.reverse_append, List.reverse_cons, List.reverse_nil,
        List.nil_append, List.cons_append, List.cons.injEq] at h2
      obtain ⟨h1, h2⟩ := h2
      have hmod := digitChar_inj_lt (Nat.mod_lt _ (by omega)) (Nat.mod_lt _ (by omega)) h1
      have hdiv := ih (m / 10) (Nat.div_lt_self (by omega) (by omega)) (n / 10)
        (List.reverse_injective h2)
      omega

/-- The decimal string of a natural number determines the number. -/
theorem decRepr_injective (m n : Nat) (h : decRepr m = decRepr n) : m = n :=
  decChars_injective m n (congrArg String.data h)

/-- Appending to a common left part of a string is cancellative. -/
theorem string_append_left_cancel {p a b : String} (h : p ++ a = p ++ b) : a = b := by
  have hd := congrArg String.data h
  simp only [String.data_append] at hd
  have hab : a.data = b.data := List.append_cancel_left hd
  cases a; cases b
  exact congrArg String.mk hab

/-- Distinct timestamps give distinct index names. -/
theorem indexNameOf_injective {t1 t2 : Nat} (h : t1 ≠ t2) :
    indexNameOf t1 ≠ indexNameOf t2 := fun he =>
  h (decRepr_injective _ _ (string_append_left_cancel he))

/-- C8 counterexample: two distinct runs — the environment and timestamp
coincide, the prompts differ — request collections with the same name, so
the name does not differ between every pair of distinct runs. -/
theorem fresh_name_per_run_cex :
    inputsA ≠ inputsB ∧
    createdCollectionName (main envOk inputsA sess0) =
      createdCollectionName (main envOk inputsB sess0) ∧
    (createdCollectionName (main envOk inputsA sess0)).isSome = true :=
  ⟨by decide, rfl, rfl⟩

/-- C8 as amended: every run past client initialization requests exactly
one freshly created collection, named from its own timestamp, and two
runs receive distinct names whenever their integer timestamps differ
(runs sharing a timestamp second receive the same name). -/
theorem fresh_collection_and_timestamp_names :
    (∀ (env : Env) (inp : Inputs) (s0 : SessionState) (k : String),
      inp.uploadedFile = true → env.secretKey = some k →
      createdCollectionName (main env inp s0) = some (indexNameOf inp.timestamp) ∧
      ((main env inp s0).calls.countP isIndexCreate) = 1) ∧
    (∀ t1 t2 : Nat, t1 ≠ t2 → indexNameOf t1 ≠ indexNameOf t2) := by
  constructor
  · intro env inp s0 k hf hk
    obtain ⟨sk, icr, tcr, wr, tvid, gr⟩ := env
    obtain ⟨pr, uf, ts⟩ := inp
    simp only at hf hk
    subst hf
    subst hk
    cases icr with
    | error e =>
      simp [main, create_twelvelabs_client, create_index, createdCollectionName,
        isIndexCreate, indexNameOf, List.findSome?, List.countP_cons, List.countP_nil]
    | ok idx =>
      cases tcr with
      | error e =>
        simp [main, create_twelvelabs_client, create_index, upload_video_and_wait,
          createdCollectionName, isIndexCreate, indexNameOf, List.findSome?,
          List.countP_cons, List.countP_nil]
      | ok u =>
        rcases wr with e | ⟨sts, fin⟩
        · simp [main, create_twelvelabs_client, create_index, upload_video_and_wait,
            createdCollectionName, isIndexCreate, indexNameOf, List.findSome?,
            List.countP_cons, List.countP_nil]
        · by_cases hfin : fin = "ready" <;> cases gr <;>
            simp [main, create_twelvelabs_client, create_index, upload_video_and_wait,
              generate_text_from_video, createdCollectionName, isIndexCreate,
              indexNameOf, List.findSome?, List.countP_cons, List.countP_nil, hfin]
  · exact fun t1 t2 h => indexNameOf_injective h

/-- Witness for amended C8: the collection name of a concrete run, and two
distinct timestamps giving distinct names. -/
theorem fresh_collection_names_witness :
    createdCollectionName (main envOk inputsC sess0) =
      some (indexNameOf inputsC.timestamp) ∧
    indexNameOf 0 ≠ indexNameOf 1 :=
  ⟨(fresh_collection_and_timestamp_names.1 envOk inputsC sess0 "k" rfl rfl).1,
   fresh_collection_and_timestamp_names.2 0 1 (by decide)⟩

/-- C7 counterexample: no secret is read at module startup; a run with the
key absent performs the read itself and fails, and the next run fails the
same way again — the failure is per workflow run, not a startup-time one. -/
theorem api_key_startup_cex :
    startup.secretReads = 0 ∧
    (main envNoKey inputsA sess0).secretReads = 1 ∧
    (main envNoKey inputsA sess0).outcome = Outcome.clientInitFailed ∧
    (main envNoKey inputsA (main envNoKey inputsA sess0).session).outcome =
      Outcome.clientInitFailed :=
  ⟨rfl, rfl, rfl, rfl⟩

/-- C7 as amended: the API key is read from the secrets store at most once
per workflow run, at client initialization at the start of the run (never
at module startup), and its absence fails that run immediately with the
client-initialization failure before any remote call is made. -/
theorem api_key_read_per_run :
    startup.secretReads = 0 ∧
    (∀ (env : Env) (inp : Inputs) (s0 : SessionState),
      (main env inp s0).secretReads ≤ 1) ∧
    (∀ (env : Env) (inp : Inputs) (s0 : SessionState),
      inp.uploadedFile = true → env.secretKey = none →
      (main env inp s0).outcome = Outcome.clientInitFailed ∧
      (main env inp s0).calls = [] ∧
      (main env inp s0).secretReads = 1) := by
  refine ⟨rfl, ?_, ?_⟩
  · intro env inp s0
    obtain ⟨sk, icr, tcr, wr, tvid, gr⟩ := env
    obtain ⟨pr, uf, ts⟩ := inp
    cases uf with
    | false => simp [main]
    | true =>
      cases sk with
      | none => simp [main, create_twelvelabs_client]
      | some k =>
        cases icr with
        | error e => simp [main, create_twelvelabs_client, create_index]
        | ok idx =>
          cases tcr with
          | error e =>
            simp [main, create_twelvelabs_client, create_index, upload_video_and_wait]
          | ok u =>
            rcases wr with e | ⟨sts, fin⟩
            · simp [main, create_twelvelabs_client, create_index, upload_video_and_wait]
            · by_cases hfin : fin = "ready" <;> cases gr <;>
                simp [main, create_twelvelabs_client, create_index,
                  upload_video_and_wait, generate_text_from_video, hfin]
  · intro env inp s0 hf hk
    simp [main, create_twelvelabs_client, hf, hk]

/-- Witness for amended C7 at a concrete run with the key absent. -/
theorem api_key_read_per_run_witness :
    (main envNoKey inputsC sess0).outcome = Outcome.clientInitFailed ∧
    (main envNoKey inputsC sess0).calls = [] ∧
    (main envNoKey inputsC sess0).secretReads = 1 :=
  api_key_read_per_run.2.2 envNoKey inputsC sess0 rfl rfl

end ProductPlacement
